import Mathlib

/-!
# Verification of the CLLI classification-and-validation engine

A shallow embedding of the Go package `clli` (core parsing in `clli.go`):
character classes, the entity-code table grammar, the input normalizer,
the structural classifier inside `ParseWithOptions`, and the package-level
shape probes `IsEntityCLLI` / `IsNonBuildingCLLI` / `IsCustomerCLLI`.

Go strings are modelled as `List Char` (all relevant inputs are ASCII, so
byte indexing and rune iteration coincide with list operations).
Functions returning `error` are modelled as `Bool` (`true` = `nil` error)
when only pass/fail matters, and `ParseWithOptions` returns
`Except ParseError CLLI` mirroring the `(*CLLI, error)` pair.
-/

namespace CLLIEmbed

/-- Character class `A`–`Z` (codepoints 65–90), as in the Go comparison
`r >= 'A' && r <= 'Z'`. -/
def isUpperChar (c : Char) : Bool := 65 ≤ c.toNat && c.toNat ≤ 90

/-- Character class `a`–`z` (codepoints 97–122, used by the uppercase
normalizer). -/
def isLowerChar (c : Char) : Bool := 97 ≤ c.toNat && c.toNat ≤ 122

/-- Character class `0`–`9` (codepoints 48–57), as in the Go comparison
`r >= '0' && r <= '9'`. -/
def isDigitChar (c : Char) : Bool := 48 ≤ c.toNat && c.toNat ≤ 57

/-- Alphanumeric character `A`–`Z` or `0`–`9` (the permitted CLLI alphabet). -/
def isAlnumChar (c : Char) : Bool := isUpperChar c || isDigitChar c

/-- ASCII whitespace (space, tab, newline, vertical tab, form feed, carriage
return), modelling the characters `strings.TrimSpace` removes for the inputs
in scope. -/
def isSpaceChar (c : Char) : Bool :=
  c.toNat = 32 || c.toNat = 9 || c.toNat = 10 || c.toNat = 11 || c.toNat = 12 || c.toNat = 13

/-- Model of Go `strings.TrimSpace`: drop leading and trailing whitespace. -/
def trimSpace (s : List Char) : List Char :=
  ((s.dropWhile isSpaceChar).reverse.dropWhile isSpaceChar).reverse

/-- Model of Go `strings.TrimRight(s, " ")`: drop trailing space characters. -/
def trimRightSpaces (s : List Char) : List Char :=
  (s.reverse.dropWhile (fun c => c.toNat = 32)).reverse

/-- ASCII uppercase of one character, as `strings.ToUpper` acts on `a`–`z`. -/
def toUpperChar (c : Char) : Char :=
  if isLowerChar c then Char.ofNat (c.toNat - 32) else c

/-- Model of Go `strings.ToUpper` on ASCII input. -/
def toUpperList (s : List Char) : List Char := s.map toUpperChar

/-- Go slice `s[a:b]` on a string, as a list. -/
def listSlice (s : List Char) (a b : Nat) : List Char := (s.drop a).take (b - a)

/-- Go `isDigitsOnly`: every character is a digit and the string is nonempty. -/
def isDigitsOnly (s : List Char) : Bool := s.all isDigitChar && !s.isEmpty

/-- Go `isAlpha`: every character is an uppercase letter and the string is nonempty. -/
def isAlpha (s : List Char) : Bool := s.all isUpperChar && !s.isEmpty

/-- Go `isDigits` (same body as `isDigitsOnly` in the source). -/
def isDigits (s : List Char) : Bool := s.all isDigitChar && !s.isEmpty

/-- Go `isDigit`: exactly one character, and it is a digit. -/
def isDigit (s : List Char) : Bool := s.length = 1 && s.all isDigitChar

/-- Go `isValidEntityCode`: loose structural check, 2–3 alphanumeric characters. -/
def isValidEntityCode (s : List Char) : Bool :=
  2 ≤ s.length && s.length ≤ 3 && s.all isAlnumChar

/-- The CLLI type enumeration (`CLLIType` in the source). -/
inductive CLLIType where
  | unknown
  | entity
  | nonBuilding
  | customer
deriving DecidableEq, Repr

/-- The parsed-identifier record (`CLLI` struct in the source).
Optional fields hold `[]` when unpopulated, like Go zero-value strings. -/
structure CLLI where
  Original : List Char
  Place : List Char
  Region : List Char
  NetworkSite : List Char
  EntityCode : List Char
  LocationCode : List Char
  LocationID : List Char
  CustomerCode : List Char
  CustomerID : List Char
  cliType : CLLIType
  valid : Bool
deriving DecidableEq, Repr

/-- The underlying sentinel errors (`errors.New` values in the source). -/
inductive CLLIErr where
  | invalidCLLI
  | invalidPlace
  | invalidRegion
  | invalidSite
  | invalidEntity
  | invalidLocation
  | emptyInput
deriving DecidableEq, Repr

/-- The structured `ParseError` (input, 0-based position, field name, cause). -/
structure ParseError where
  Input : List Char
  Position : Nat
  Field : String
  Err : CLLIErr
deriving DecidableEq, Repr

/-- Parse configuration (`ParseOptions` struct). `StrictValidation` is a
declared alias that the parser body never reads. -/
structure ParseOptions where
  Strict : Bool
  StrictValidation : Bool
  NormalizeCase : Bool
  TrimWhitespace : Bool
deriving DecidableEq, Repr

/-- The options `Parse` constructs (`StrictValidation` is left at its zero value). -/
def defaultOptions : ParseOptions :=
  { Strict := true, StrictValidation := false,
    NormalizeCase := true, TrimWhitespace := true }

/-- Go `validatePlace`: after stripping trailing spaces the place must be
exactly 4 uppercase letters. -/
def validatePlace (place : List Char) : Bool :=
  if place = [] then false
  else if (trimRightSpaces place).length ≠ 4 then false
  else (trimRightSpaces place).all isUpperChar

/-- The enumerated set of recognized region codes (US states, DC, and
Canadian provinces/territories), from the `validRegions` map. -/
def validRegions : List String :=
  ["AL", "AK", "AZ", "AR", "CA", "CO", "CT",
   "DE", "FL", "GA", "HI", "ID", "IL", "IN",
   "IA", "KS", "KY", "LA", "ME", "MD", "MA",
   "MI", "MN", "MS", "MO", "MT", "NE", "NV",
   "NH", "NJ", "NM", "NY", "NC", "ND", "OH",
   "OK", "OR", "PA", "RI", "SC", "SD", "TN",
   "TX", "UT", "VT", "VA", "WA", "WV", "WI",
   "WY", "DC",
   "AB", "BC", "MB", "NB", "NL", "NT", "NS",
   "NU", "ON", "PE", "QC", "SK", "YT"]

/-- Go `validateRegion`: exactly 2 uppercase letters, in the enumerated set. -/
def validateRegion (region : List Char) : Bool :=
  if region = [] then false
  else if region.length ≠ 2 then false
  else if ¬ region.all isUpperChar then false
  else validRegions.contains (String.mk region)

/-- Go `validateNetworkSiteDigitsOnly`: exactly 2 digits. -/
def validateNetworkSiteDigitsOnly (site : List Char) : Bool :=
  if site = [] then false
  else if site.length ≠ 2 then false
  else site.all isDigitChar

/-- Go `validateNetworkSiteAlphanumeric`: exactly 2 alphanumeric characters. -/
def validateNetworkSiteAlphanumeric (site : List Char) : Bool :=
  if site = [] then false
  else if site.length ≠ 2 then false
  else site.all isAlnumChar

/-- The two-letter equipment code heads of Table B (`tbPrefixes` map keys). -/
def tbHeads : List String :=
  ["MG", "SG", "CG", "DS", "RL", "PS", "RP", "CM",
   "VS", "OS", "OL", "RT", "SW", "MS", "XC"]

/-- The Table‑E enumerated allow-list of additional codes. -/
def tableEList : List String :=
  ["F23", "A12", "E45", "K67", "M89", "P01", "S34", "T56", "W78",
   "FAA", "AAA", "EZZ", "KA1", "M2Z"]

/-- Membership of a character in a literal string (Go `strings.ContainsRune`). -/
def containsRune (s : String) (c : Char) : Bool := s.data.contains c

/-- Go `validateEntityCode`: the strict Bell-table grammar on a 3-character
code. Returns `true` where the Go function returns a nil error. -/
def validateEntityCode (code : List Char) : Bool :=
  if code = [] then false
  else if code.length ≠ 3 then false
  else if ¬ (isValidEntityCode code && code.length = 3) then false
  else
    match code with
    | [c0, c1, c2] =>
      -- Table B: two-letter equipment heads + any alphanumeric third char
      if tbHeads.contains (String.mk [c0, c1]) then true
      -- Table B numeric variants: [0-9]{2}[12AZ]
      else if isDigitChar c0 && isDigitChar c1 && containsRune "12AZ" c2 then true
      -- Table B T-suffix: [CB0-9][0-9]T
      else if (c0 = 'C' || c0 = 'B' || isDigitChar c0) && isDigitChar c1 && c2 = 'T' then true
      -- Table B GT: [0-9]GT
      else if isDigitChar c0 && c1 = 'G' && c2 = 'T' then true
      -- Table B: Z[A-Z]Z
      else if c0 = 'Z' && isUpperChar c1 && c2 = 'Z' then true
      -- Table B: RS[0-9]
      else if c0 = 'R' && c1 = 'S' && isDigitChar c2 then true
      -- Table B: X[A-Z]X
      else if c0 = 'X' && isUpperChar c1 && c2 = 'X' then true
      -- Table B: CT[12AZ]
      else if c0 = 'C' && c1 = 'T' && containsRune "12AZ" c2 then true
      -- Table C: [0-9][CDBINQWMVROLPEUTZ0-9]B
      else if isDigitChar c0 && (containsRune "CDBINQWMVROLPEUTZ" c1 || isDigitChar c1)
          && c2 = 'B' then true
      -- Table D: [0-9][AXCTWDEINPQ]D
      else if isDigitChar c0 && containsRune "AXCTWDEINPQ" c1 && c2 = 'D' then true
      -- Table D: [A-Z0-9][UM]D
      else if (isUpperChar c0 || isDigitChar c0) && containsRune "UM" c1 && c2 = 'D' then true
      -- Table E: Q[0-9][0-9]
      else if c0 = 'Q' && isDigitChar c1 && isDigitChar c2 then true
      -- Table E enumerated allow-list
      else if tableEList.contains (String.mk code) then true
      else false
    | _ => false

/-- Index of the first character outside `A`–`Z`/`0`–`9`, modelling the
character-scan loop in `ParseWithOptions`. -/
def firstBadChar (input : List Char) : Option Nat :=
  input.findIdx? (fun r => ¬ isAlnumChar r)

/-- Normalization applied by `ParseWithOptions` according to the options. -/
def normalizeInput (clli : List Char) (opts : ParseOptions) : List Char :=
  let trimmed := if opts.TrimWhitespace then trimSpace clli else clli
  if opts.NormalizeCase then toUpperList trimmed else trimmed

/-- The network-site pre-check of `ParseWithOptions` (lines guarded by
`len(input) >= 8`): entity-looking inputs get the digits-only check,
others the alphanumeric check. Returns `true` when the check fails. -/
def precheckFails (input : List Char) : Bool :=
  if input.length ≥ 8 then
    if (if input.length > 8 then input.drop 8 else []).length ≥ 2
        && (listSlice input 6 8).all isDigitChar then
      ¬ validateNetworkSiteDigitsOnly (listSlice input 6 8)
    else
      ¬ validateNetworkSiteAlphanumeric (listSlice input 6 8)
  else false

/-- The type-determination block of `ParseWithOptions`: populates the
type-specific fields on the base record by the priority-ordered signature
checks on `remainder = input[6:]`. -/
def classifyRemainder (input : List Char) (result : CLLI) : CLLI :=
  if input.length ≥ 8 then
    -- 15-character Customer CLLI
    if (input.drop 6).length = 9 && isDigits (listSlice (input.drop 6) 0 2) then
      { result with NetworkSite := listSlice (input.drop 6) 0 2,
                    EntityCode := (input.drop 6).drop 2, cliType := .customer }
    -- Entity CLLI: digits network site + structurally valid entity code
    else if (input.drop 6).length ≥ 5 && isDigitsOnly (listSlice (input.drop 6) 0 2)
        && isValidEntityCode ((input.drop 6).drop 2) then
      { result with NetworkSite := listSlice (input.drop 6) 0 2,
                    EntityCode := (input.drop 6).drop 2, cliType := .entity }
    -- Non-building CLLI: letter location code + digit location ID
    else if (input.drop 6).length ≥ 5 && isAlpha (listSlice (input.drop 6) 0 1)
        && isDigits ((input.drop 6).drop 1) then
      { result with LocationCode := listSlice (input.drop 6) 0 1,
                    LocationID := (input.drop 6).drop 1, cliType := .nonBuilding }
    -- Customer CLLI: digit customer code + letter + digit customer ID
    else if (input.drop 6).length ≥ 5 && isDigit (listSlice (input.drop 6) 0 1)
        && isAlpha (listSlice (input.drop 6) 1 2) && isDigits ((input.drop 6).drop 2) then
      { result with CustomerCode := listSlice (input.drop 6) 0 1,
                    CustomerID := (input.drop 6).drop 1, cliType := .customer }
    -- Special case: 8-character CLLI (PPPPRRNN), treated as non-building
    else if (input.drop 6).length = 2 && isDigitsOnly (input.drop 6) then
      { result with NetworkSite := input.drop 6, cliType := .nonBuilding }
    -- Default: entity with alphanumeric network site
    else if (input.drop 6).length ≥ 2 then
      { result with NetworkSite := listSlice (input.drop 6) 0 2,
                    EntityCode := if (input.drop 6).length > 2 then (input.drop 6).drop 2
                                  else result.EntityCode,
                    cliType := .entity }
    else result
  else
    -- Short CLLI: default to non-building (the inner length test mirrors
    -- the unreachable assignment in the source)
    if input.length ≥ 8 then
      { result with NetworkSite := listSlice input 6 8, cliType := .nonBuilding }
    else
      { result with cliType := .nonBuilding }

/-- The post-classification entity-code validation of `ParseWithOptions`. -/
def postValidate (clli : List Char) (result : CLLI) : Except ParseError CLLI :=
  if result.cliType = CLLIType.entity && result.EntityCode ≠ [] then
    if result.EntityCode.length < 2 || result.EntityCode.length > 3 then
      .error ⟨clli, 8, "entity_code", .invalidEntity⟩
    else if ¬ validateEntityCode result.EntityCode then
      .error ⟨clli, 8, "entity_code", .invalidEntity⟩
    else .ok result
  else .ok result

/-- The space-padded place extracted for validation (`place` local). -/
def paddedPlace (input : List Char) : List Char :=
  if input.length ≥ 4 then listSlice input 0 4
  else input ++ List.replicate (4 - input.length) ' '

/-- The space-padded region extracted for validation (`region` local). -/
def paddedRegion (input : List Char) : List Char :=
  if input.length ≥ 6 then listSlice input 4 6
  else if input.length > 4 then input.drop 4 ++ List.replicate (6 - input.length) ' '
  else []

/-- The `X`-padded region stored on the record (`actualRegion` local). -/
def actualRegion (input : List Char) : List Char :=
  if input.length ≥ 6 then listSlice input 4 6
  else if input.length > 4 then input.drop 4 ++ List.replicate (6 - input.length) 'X'
  else ['X', 'X']

/-- The base record built after component validation, before the
type-determination block. -/
def baseRecord (input : List Char) : CLLI :=
  { Original := input, Place := trimRightSpaces (listSlice input 0 4),
    Region := actualRegion input, NetworkSite := [], EntityCode := [],
    LocationCode := [], LocationID := [], CustomerCode := [],
    CustomerID := [], cliType := .unknown, valid := true }

/-- Everything `ParseWithOptions` does after the length checks, on the
normalized `input` (the options are not consulted past this point). -/
def parseBody (clli input : List Char) : Except ParseError CLLI :=
  match firstBadChar input with
  | some i => .error ⟨clli, i, "characters", .invalidCLLI⟩
  | none =>
    if ¬ validatePlace (paddedPlace input) then
      .error ⟨clli, 0, "place", .invalidPlace⟩
    else if input.length > 4 && ¬ validateRegion (paddedRegion input) then
      .error ⟨clli, 4, "region", .invalidRegion⟩
    else if precheckFails input then
      .error ⟨clli, 6, "network_site", .invalidSite⟩
    else
      postValidate clli (classifyRemainder input (baseRecord input))

/-- Go `ParseWithOptions` (nil options behave like `Parse`'s defaults, so the
options argument is always a concrete record here). -/
def ParseWithOptions (clli : List Char) (opts : ParseOptions) : Except ParseError CLLI :=
  if trimSpace clli = [] then
    .error ⟨clli, 0, "input", .emptyInput⟩
  else if opts.Strict && (normalizeInput clli opts).length < 8 then
    .error ⟨clli, 0, "length", .invalidCLLI⟩
  else if !opts.Strict && (normalizeInput clli opts).length < 4 then
    .error ⟨clli, 0, "length", .invalidCLLI⟩
  else if (normalizeInput clli opts).length > 15 then
    .error ⟨clli, 0, "length", .invalidCLLI⟩
  else parseBody clli (normalizeInput clli opts)

/-- Go `Parse`: strict defaults. -/
def Parse (clli : List Char) : Except ParseError CLLI :=
  ParseWithOptions clli defaultOptions

/-- One step of the network-site/entity-code split search in `IsEntityCLLI`. -/
def entityRemainderMatch (remaining : List Char) (i : Nat) : Bool :=
  let networkSite := remaining.take i
  let entityCode := remaining.drop i
  isDigitsOnly networkSite && entityCode.length = 3 && isValidEntityCode entityCode

/-- Go package-level `IsEntityCLLI` shape probe. The `for` loop over split
positions `i = 2..5` (bounded by the remaining length) is modelled as an
any-match over the same positions with the same bound. -/
def IsEntityCLLI (clli : List Char) : Bool :=
  if clli = [] then false
  else if clli ≠ toUpperList clli then false
  else if clli.length < 8 || clli.length > 11 then false
  else if clli.length < 6 then false
  else if ¬ (isAlpha (listSlice clli 0 4) && isAlpha (listSlice clli 4 6)) then false
  else if (clli.drop 6).length ≥ 2 then
    (List.range' 2 4).any (fun i =>
      i ≤ (clli.drop 6).length && entityRemainderMatch (clli.drop 6) i)
  else false

/-- Go package-level `IsNonBuildingCLLI` shape probe. -/
def IsNonBuildingCLLI (clli : List Char) : Bool :=
  if clli = [] then false
  else if clli ≠ toUpperList clli then false
  else if clli.length ≠ 11 then false
  else if ¬ (isAlpha (listSlice clli 0 4) && isAlpha (listSlice clli 4 6)) then false
  else if ¬ isAlpha (listSlice clli 6 7) then false
  else if ¬ isDigitsOnly (listSlice clli 7 11) then false
  else true

/-- Go package-level `IsCustomerCLLI` shape probe. -/
def IsCustomerCLLI (clli : List Char) : Bool :=
  if clli = [] then false
  else if clli ≠ toUpperList clli then false
  else if clli.length ≠ 11 then false
  else if ¬ (isAlpha (listSlice clli 0 4) && isAlpha (listSlice clli 4 6)) then false
  else if ¬ isDigit (listSlice clli 6 7) then false
  else if ¬ isAlpha (listSlice clli 7 8) then false
  else if ¬ isDigitsOnly (listSlice clli 8 11) then false
  else true

/-- Go package-level `ValidateEntityCode` with a strict flag: non-strict
callers get case/whitespace normalization, the grammar check is shared. -/
def ValidateEntityCode (code : List Char) (strict : Bool) : Bool :=
  if code = [] then false
  else
    let testCode := if ¬ strict then toUpperList (trimSpace code) else code
    validateEntityCode testCode

/-! ## Helper lemmas -/

/-- An alphanumeric character is not whitespace. -/
theorem alnum_not_space {c : Char} (h : isAlnumChar c = true) : isSpaceChar c = false := by
  simp only [isAlnumChar, isUpperChar, isDigitChar, Bool.or_eq_true, Bool.and_eq_true,
    decide_eq_true_eq] at h
  simp only [isSpaceChar, Bool.or_eq_false_iff, decide_eq_false_iff_not]
  omega

/-- `dropWhile` is the identity on a list none of whose elements satisfy the
predicate. -/
theorem dropWhile_eq_self_of_none {p : Char → Bool} :
    ∀ {s : List Char}, (∀ c ∈ s, p c = false) → s.dropWhile p = s := by
  intro s h
  cases s with
  | nil => rfl
  | cons a t =>
    rw [List.dropWhile_cons, if_neg]
    simp [h a (by simp)]

/-- Trimming whitespace is the identity on an all-alphanumeric string. -/
theorem trimSpace_eq_self {s : List Char} (h : ∀ c ∈ s, isAlnumChar c = true) :
    trimSpace s = s := by
  unfold trimSpace
  rw [dropWhile_eq_self_of_none (fun c hc => alnum_not_space (h c hc)),
    dropWhile_eq_self_of_none
      (fun c hc => alnum_not_space (h c (List.mem_reverse.mp hc))),
    List.reverse_reverse]

/-- Uppercasing fixes an alphanumeric character. -/
theorem toUpperChar_eq_self {c : Char} (h : isAlnumChar c = true) : toUpperChar c = c := by
  simp only [isAlnumChar, isUpperChar, isDigitChar, Bool.or_eq_true, Bool.and_eq_true,
    decide_eq_true_eq] at h
  unfold toUpperChar
  rw [if_neg]
  simp only [isLowerChar, Bool.and_eq_true, decide_eq_true_eq, not_and]
  omega

/-- Uppercasing is the identity on an all-alphanumeric string. -/
theorem toUpperList_eq_self {s : List Char} (h : ∀ c ∈ s, isAlnumChar c = true) :
    toUpperList s = s := by
  unfold toUpperList
  induction s with
  | nil => rfl
  | cons a t ih =>
    rw [List.map_cons, toUpperChar_eq_self (h a (by simp)),
      ih (fun c hc => h c (by simp [hc]))]

/-- Trimming trailing spaces is the identity on an all-alphanumeric string. -/
theorem trimRightSpaces_eq_self {s : List Char} (h : ∀ c ∈ s, isAlnumChar c = true) :
    trimRightSpaces s = s := by
  unfold trimRightSpaces
  rw [dropWhile_eq_self_of_none, List.reverse_reverse]
  intro c hc
  have h' := h c (List.mem_reverse.mp hc)
  simp only [isAlnumChar, isUpperChar, isDigitChar, Bool.or_eq_true, Bool.and_eq_true,
    decide_eq_true_eq] at h'
  simp only [decide_eq_false_iff_not]
  omega

/-- No character is both an uppercase letter and a digit. -/
theorem not_upper_and_digit {c : Char} (hu : isUpperChar c = true)
    (hd : isDigitChar c = true) : False := by
  simp only [isUpperChar, isDigitChar, Bool.and_eq_true, decide_eq_true_eq] at hu hd
  omega

/-- Splitting one element off a list of known successor length. -/
theorem exists_cons_of_len (s : List Char) (n : Nat) (h : s.length = n + 1) :
    ∃ a t, t.length = n ∧ s = a :: t := by
  cases s with
  | nil => simp at h
  | cons a t => exact ⟨a, t, by simpa using h, rfl⟩

/-- Destructuring a list of known length eleven into its elements. -/
theorem exists_list_eleven (s : List Char) (h : s.length = 11) :
    ∃ c0 c1 c2 c3 c4 c5 c6 c7 c8 c9 c10,
      s = [c0, c1, c2, c3, c4, c5, c6, c7, c8, c9, c10] := by
  obtain ⟨c0, s, h0, rfl⟩ := exists_cons_of_len s 10 h
  obtain ⟨c1, s, h1, rfl⟩ := exists_cons_of_len s 9 h0
  obtain ⟨c2, s, h2, rfl⟩ := exists_cons_of_len s 8 h1
  obtain ⟨c3, s, h3, rfl⟩ := exists_cons_of_len s 7 h2
  obtain ⟨c4, s, h4, rfl⟩ := exists_cons_of_len s 6 h3
  obtain ⟨c5, s, h5, rfl⟩ := exists_cons_of_len s 5 h4
  obtain ⟨c6, s, h6, rfl⟩ := exists_cons_of_len s 4 h5
  obtain ⟨c7, s, h7, rfl⟩ := exists_cons_of_len s 3 h6
  obtain ⟨c8, s, h8, rfl⟩ := exists_cons_of_len s 2 h7
  obtain ⟨c9, s, h9, rfl⟩ := exists_cons_of_len s 1 h8
  obtain ⟨c10, s, h10, rfl⟩ := exists_cons_of_len s 0 h9
  rw [List.length_eq_zero] at h10
  subst h10
  exact ⟨c0, c1, c2, c3, c4, c5, c6, c7, c8, c9, c10, rfl⟩

/-! ## Claim theorems -/

/-- Auxiliary: the strict package-level entity-code validator on a nonempty
code is exactly the internal table grammar. -/
theorem ValidateEntityCode_strict_eq (code : List Char) (h : code ≠ []) :
    ValidateEntityCode code true = validateEntityCode code := by
  unfold ValidateEntityCode
  rw [if_neg h]
  simp

/-- C2 counterexample: "QQQ" is a 3-character alphanumeric entity code that
fails every Table B–E sub-grammar, and relaxed (non-strict) parsing of
"MPLSMN01QQQ" rejects it with an entity-code violation — contradicting the
claim that relaxed mode accepts any 2–3 character alphanumeric code without
grammar checking. -/
theorem C2_counterexample :
    isValidEntityCode "QQQ".data = true ∧
    validateEntityCode "QQQ".data = false ∧
    ParseWithOptions "MPLSMN01QQQ".data
      { Strict := false, StrictValidation := false,
        NormalizeCase := true, TrimWhitespace := true } =
      .error ⟨"MPLSMN01QQQ".data, 8, "entity_code", .invalidEntity⟩ :=
  ⟨rfl, rfl, rfl⟩

/-- C2 (amended): the Table B–E grammar check on a trailing entity code is
enforced under every parse configuration, strict or relaxed alike — a code
failing all sub-grammars is rejected in both modes; relaxed mode only lowers
the minimum length bound. Shown on the representative code "QQQ" for all 16
option combinations. -/
theorem C2_table_check_both_modes (opts : ParseOptions) :
    ParseWithOptions "MPLSMN01QQQ".data opts =
      .error ⟨"MPLSMN01QQQ".data, 8, "entity_code", .invalidEntity⟩ := by
  obtain ⟨s, sv, nc, tw⟩ := opts
  cases s <;> cases sv <;> cases nc <;> cases tw <;> rfl

/-- C3: the code stores the trimmed/uppercased input in `Original`, not the
exact pre-normalization input: parsing "chcgil01ds0" succeeds and yields
`Original = "CHCGIL01DS0"`, which differs from the input as received. -/
theorem C3_code_eval :
    (("chcgil01ds0".data : List Char) == "CHCGIL01DS0".data) = false ∧
    Parse "chcgil01ds0".data =
      .ok ⟨"CHCGIL01DS0".data, "CHCG".data, "IL".data, "01".data, "DS0".data,
        [], [], [], [], .entity, true⟩ :=
  ⟨rfl, rfl⟩

/-- C4 counterexample: "LSANCA12" parses successfully with shape NonBuilding,
yet its `LocationCode`/`LocationID` are empty and the entity-payload field
`NetworkSite` is populated — contradicting the claim that a NonBuilding parse
populates locationCode+locationId and leaves the other payloads empty. -/
theorem C4_counterexample :
    Parse "LSANCA12".data =
      .ok ⟨"LSANCA12".data, "LSAN".data, "CA".data, "12".data, [],
        [], [], [], [], .nonBuilding, true⟩ :=
  rfl

/-- C5 counterexample: "003" consists of two digits followed by the
alphanumeric character '3', yet strict entity-code validation rejects it —
the numeric-head sub-grammar only admits third characters 1, 2, A, Z. -/
theorem C5_counterexample :
    isDigitChar '0' = true ∧ isAlnumChar '3' = true ∧
    ValidateEntityCode "003".data true = false :=
  ⟨rfl, rfl, rfl⟩

/-- C6: parsing "MPLSMNMSDS1" with the default configuration succeeds as an
Entity with place MPLS, region MN, network site MS and entity code DS1; the
conjuncts make explicit that MS is letters, not digits, so classification
went through the fallback rule. -/
theorem C6_fallback_entity :
    Parse "MPLSMNMSDS1".data =
      .ok ⟨"MPLSMNMSDS1".data, "MPLS".data, "MN".data, "MS".data, "DS1".data,
        [], [], [], [], .entity, true⟩ ∧
    isAlpha "MS".data = true ∧ isDigitsOnly "MS".data = false :=
  ⟨rfl, rfl, rfl⟩

/-- C10: for every configuration — the trimming and case flags included —
parsing the empty string or a whitespace-only string fails with the
EmptyInput error on field "input", because the blank-input check trims
unconditionally before any other processing. -/
theorem C10_empty_input (clli : List Char) (opts : ParseOptions)
    (h : trimSpace clli = []) :
    ParseWithOptions clli opts = .error ⟨clli, 0, "input", .emptyInput⟩ := by
  unfold ParseWithOptions
  rw [if_pos h]

/-- C10 witness: the three-space string is whitespace-only and is rejected as
EmptyInput even with `TrimWhitespace := false`. -/
theorem C10_witness :
    trimSpace "   ".data = [] ∧
    ParseWithOptions "   ".data
      { Strict := true, StrictValidation := false,
        NormalizeCase := false, TrimWhitespace := false } =
      .error ⟨"   ".data, 0, "input", .emptyInput⟩ :=
  ⟨by decide, C10_empty_input "   ".data
    { Strict := true, StrictValidation := false,
      NormalizeCase := false, TrimWhitespace := false } (by decide)⟩

/-- C5 (amended): a 3-character code of two digits followed by one of the
characters 1, 2, A, Z is always accepted by strict entity-code validation
(the numeric-head variant of Table B); "any alphanumeric" third character is
not accepted in general. -/
theorem C5_numeric_head (a b c : Char)
    (ha : isDigitChar a = true) (hb : isDigitChar b = true)
    (hc : c = '1' ∨ c = '2' ∨ c = 'A' ∨ c = 'Z') :
    ValidateEntityCode [a, b, c] true = true := by
  rw [ValidateEntityCode_strict_eq _ (by simp)]
  have hcAl : isAlnumChar c = true := by
    rcases hc with rfl | rfl | rfl | rfl <;> rfl
  have hcRune : containsRune "12AZ" c = true := by
    rcases hc with rfl | rfl | rfl | rfl <;> rfl
  have haAl : isAlnumChar a = true := by simp [isAlnumChar, ha]
  have hbAl : isAlnumChar b = true := by simp [isAlnumChar, hb]
  have hval : isValidEntityCode [a, b, c] = true := by
    simp [isValidEntityCode, haAl, hbAl, hcAl]
  unfold validateEntityCode
  rw [if_neg (by simp), if_neg (by simp)]
  rw [if_neg (by simp [hval])]
  split <;> simp_all

/-- C5 witness: the numeric-head rule accepts the concrete code "01A". -/
theorem C5_witness :
    isDigitChar '0' = true ∧ isDigitChar '1' = true ∧
    (('A' : Char) = '1' ∨ ('A' : Char) = '2' ∨ ('A' : Char) = 'A' ∨ ('A' : Char) = 'Z') ∧
    ValidateEntityCode ['0', '1', 'A'] true = true :=
  ⟨rfl, rfl, Or.inr (Or.inr (Or.inl rfl)),
    C5_numeric_head '0' '1' 'A' rfl rfl (Or.inr (Or.inr (Or.inl rfl)))⟩

/-- Every failure produced after the length checks is reported on a field
other than "length" (characters, place, region, network_site, entity_code). -/
theorem parseBody_no_length_error (clli input : List Char) (e : ParseError)
    (h : parseBody clli input = .error e) : e.Field ≠ "length" := by
  unfold parseBody postValidate at h
  split at h
  · cases h; simp
  · split at h
    · cases h; simp
    · split at h
      · cases h; simp
      · split at h
        · cases h; simp
        · split at h
          · split at h
            · cases h; simp
            · split at h
              · cases h; simp
              · cases h
          · cases h

/-- C9: for every non-blank input and every configuration, parsing fails
with a length violation exactly when the normalized length is below 8 in
strict mode, below 4 in relaxed mode, or above 15; within those bounds no
length failure is ever reported. -/
theorem C9_length_violation_iff (clli : List Char) (opts : ParseOptions)
    (hnb : trimSpace clli ≠ []) :
    (∃ e, ParseWithOptions clli opts = .error e ∧ e.Field = "length") ↔
      ((opts.Strict = true ∧ (normalizeInput clli opts).length < 8) ∨
       (opts.Strict = false ∧ (normalizeInput clli opts).length < 4) ∨
       (normalizeInput clli opts).length > 15) := by
  unfold ParseWithOptions
  rw [if_neg hnb]
  constructor
  · rintro ⟨e, he, hf⟩
    split at he
    case isTrue h =>
      simp only [Bool.and_eq_true, decide_eq_true_eq] at h
      exact Or.inl h
    case isFalse h1 =>
      split at he
      case isTrue h =>
        simp only [Bool.and_eq_true, Bool.not_eq_true', decide_eq_true_eq] at h
        exact Or.inr (Or.inl h)
      case isFalse h2 =>
        split at he
        case isTrue h =>
          exact Or.inr (Or.inr h)
        case isFalse h3 =>
          exact absurd hf (parseBody_no_length_error clli _ e he)
  · intro h
    rcases h with ⟨hs, hl⟩ | ⟨hs, hl⟩ | hl
    · rw [if_pos (by simp [hs, hl])]
      exact ⟨_, rfl, rfl⟩
    · rw [if_neg (by simp [hs]), if_pos (by simp [hs, hl])]
      exact ⟨_, rfl, rfl⟩
    · rw [if_neg (by simp; omega), if_neg (by simp; omega),
        if_pos (by simp [hl])]
      exact ⟨_, rfl, rfl⟩

/-- C9 witness: instantiated at the non-blank 3-character input "ABC" under
the strict default configuration. -/
theorem C9_witness :
    (∃ e, ParseWithOptions "ABC".data defaultOptions = .error e ∧ e.Field = "length") ↔
      ((defaultOptions.Strict = true ∧ (normalizeInput "ABC".data defaultOptions).length < 8) ∨
       (defaultOptions.Strict = false ∧ (normalizeInput "ABC".data defaultOptions).length < 4) ∨
       (normalizeInput "ABC".data defaultOptions).length > 15) :=
  C9_length_violation_iff "ABC".data defaultOptions (by decide)

theorem ne_nil_of_isDigits {s : List Char} (h : isDigits s = true) : s ≠ [] := by
  simp only [isDigits, Bool.and_eq_true, Bool.not_eq_true', List.isEmpty_eq_false] at h
  exact h.2

theorem ne_nil_of_isDigitsOnly {s : List Char} (h : isDigitsOnly s = true) : s ≠ [] := by
  simp only [isDigitsOnly, Bool.and_eq_true, Bool.not_eq_true', List.isEmpty_eq_false] at h
  exact h.2

theorem ne_nil_of_isAlpha {s : List Char} (h : isAlpha s = true) : s ≠ [] := by
  simp only [isAlpha, Bool.and_eq_true, Bool.not_eq_true', List.isEmpty_eq_false] at h
  exact h.2

theorem ne_nil_of_isDigit {s : List Char} (h : isDigit s = true) : s ≠ [] := by
  simp only [isDigit, Bool.and_eq_true, decide_eq_true_eq] at h
  intro hnil
  subst hnil
  simp at h

theorem ne_nil_of_isValidEntityCode {s : List Char} (h : isValidEntityCode s = true) :
    s ≠ [] := by
  simp only [isValidEntityCode, Bool.and_eq_true, decide_eq_true_eq] at h
  intro hnil
  subst hnil
  simp at h

theorem drop_ne_nil {s : List Char} {n : Nat} (h : n < s.length) : s.drop n ≠ [] := by
  simp only [ne_eq, List.drop_eq_nil_iff]
  omega

theorem classify_payload (input : List Char) (r : CLLI)
    (hNS : r.NetworkSite = []) (hEC : r.EntityCode = []) (hLC : r.LocationCode = [])
    (hLID : r.LocationID = []) (hCC : r.CustomerCode = []) (hCID : r.CustomerID = []) :
    ((classifyRemainder input r).cliType = CLLIType.entity →
      (classifyRemainder input r).NetworkSite ≠ [] ∧
      (classifyRemainder input r).LocationCode = [] ∧
      (classifyRemainder input r).LocationID = [] ∧
      (classifyRemainder input r).CustomerCode = [] ∧
      (classifyRemainder input r).CustomerID = []) ∧
    ((classifyRemainder input r).cliType = CLLIType.nonBuilding →
      (classifyRemainder input r).CustomerCode = [] ∧
      (classifyRemainder input r).CustomerID = [] ∧
      (classifyRemainder input r).EntityCode = [] ∧
      (((classifyRemainder input r).LocationCode ≠ [] ∧
        (classifyRemainder input r).LocationID ≠ [] ∧
        (classifyRemainder input r).NetworkSite = []) ∨
       ((classifyRemainder input r).LocationCode = [] ∧
        (classifyRemainder input r).LocationID = []))) ∧
    ((classifyRemainder input r).cliType = CLLIType.customer →
      (classifyRemainder input r).LocationCode = [] ∧
      (classifyRemainder input r).LocationID = [] ∧
      (((classifyRemainder input r).CustomerCode ≠ [] ∧
        (classifyRemainder input r).CustomerID ≠ [] ∧
        (classifyRemainder input r).NetworkSite = [] ∧
        (classifyRemainder input r).EntityCode = []) ∨
       ((classifyRemainder input r).CustomerCode = [] ∧
        (classifyRemainder input r).CustomerID = [] ∧
        (classifyRemainder input r).NetworkSite ≠ [] ∧
        (classifyRemainder input r).EntityCode ≠ []))) := by
  unfold classifyRemainder
  split
  case isTrue hlen =>
    split
    case isTrue hcond =>
      -- 15-char customer: NetworkSite and EntityCode populated
      simp only [Bool.and_eq_true, decide_eq_true_eq] at hcond
      obtain ⟨h9, hdig⟩ := hcond
      refine ⟨fun ht => by simp at ht, fun ht => by simp at ht, fun ht => ?_⟩
      refine ⟨hLC, hLID, Or.inr ⟨hCC, hCID, ne_nil_of_isDigits hdig, ?_⟩⟩
      exact drop_ne_nil (by omega)
    case isFalse h1 =>
      split
      case isTrue hcond =>
        -- entity
        simp only [Bool.and_eq_true, decide_eq_true_eq] at hcond
        obtain ⟨⟨h5, hdig⟩, hval⟩ := hcond
        refine ⟨fun ht => ?_, fun ht => by simp at ht, fun ht => by simp at ht⟩
        exact ⟨ne_nil_of_isDigitsOnly hdig, hLC, hLID, hCC, hCID⟩
      case isFalse h2 =>
        split
        case isTrue hcond =>
          -- non-building
          simp only [Bool.and_eq_true, decide_eq_true_eq] at hcond
          obtain ⟨⟨h5, hal⟩, hdig⟩ := hcond
          refine ⟨fun ht => by simp at ht, fun ht => ?_, fun ht => by simp at ht⟩
          exact ⟨hCC, hCID, hEC, Or.inl ⟨ne_nil_of_isAlpha hal, ne_nil_of_isDigits hdig, hNS⟩⟩
        case isFalse h3 =>
          split
          case isTrue hcond =>
            -- customer short form
            simp only [Bool.and_eq_true, decide_eq_true_eq] at hcond
            obtain ⟨⟨⟨h5, hd⟩, hal⟩, hdig⟩ := hcond
            refine ⟨fun ht => by simp at ht, fun ht => by simp at ht, fun ht => ?_⟩
            refine ⟨hLC, hLID, Or.inl ⟨ne_nil_of_isDigit hd, drop_ne_nil (by omega), hNS, hEC⟩⟩
          case isFalse h4 =>
            split
            case isTrue hcond =>
              -- degenerate 8-char non-building
              simp only [Bool.and_eq_true, decide_eq_true_eq] at hcond
              obtain ⟨h2len, hdig⟩ := hcond
              refine ⟨fun ht => by simp at ht, fun ht => ?_, fun ht => by simp at ht⟩
              exact ⟨hCC, hCID, hEC, Or.inr ⟨hLC, hLID⟩⟩
            case isFalse h5 =>
              split
              case isTrue hcond =>
                -- fallback entity
                refine ⟨fun ht => ?_, fun ht => by simp at ht, fun ht => by simp at ht⟩
                refine ⟨?_, hLC, hLID, hCC, hCID⟩
                simp only [listSlice, List.drop_zero, ne_eq, List.take_eq_nil_iff]
                push_neg
                refine ⟨by omega, ?_⟩
                intro hnil
                rw [hnil] at hcond
                simp at hcond
              case isFalse h6 =>
                -- unreachable shape: remainder shorter than 2
                exfalso
                rw [List.length_drop] at h6
                omega
  case isFalse hlen =>
    -- short relaxed input: non-building with empty payloads (the dead inner
    -- branch shares the outer condition and is discharged by the split)
    refine ⟨fun ht => by simp at ht, fun ht => ?_, fun ht => by simp at ht⟩
    exact ⟨hCC, hCID, hEC, Or.inr ⟨hLC, hLID⟩⟩

/-- C4 (amended): a successful parse populates at most one trailing payload
group and never mixes groups, but the group is not always the canonical one
for the shape: the degenerate 8-character NonBuilding form populates only
`NetworkSite`, and the 15-character Customer long form populates
`NetworkSite`+`EntityCode` instead of the customer fields. -/
theorem C4_payload_invariant (clli : List Char) (opts : ParseOptions) (c : CLLI)
    (h : ParseWithOptions clli opts = .ok c) :
    (c.cliType = CLLIType.entity →
      c.NetworkSite ≠ [] ∧ c.LocationCode = [] ∧ c.LocationID = [] ∧
      c.CustomerCode = [] ∧ c.CustomerID = []) ∧
    (c.cliType = CLLIType.nonBuilding →
      c.CustomerCode = [] ∧ c.CustomerID = [] ∧ c.EntityCode = [] ∧
      ((c.LocationCode ≠ [] ∧ c.LocationID ≠ [] ∧ c.NetworkSite = []) ∨
       (c.LocationCode = [] ∧ c.LocationID = []))) ∧
    (c.cliType = CLLIType.customer →
      c.LocationCode = [] ∧ c.LocationID = [] ∧
      ((c.CustomerCode ≠ [] ∧ c.CustomerID ≠ [] ∧ c.NetworkSite = [] ∧ c.EntityCode = []) ∨
       (c.CustomerCode = [] ∧ c.CustomerID = [] ∧ c.NetworkSite ≠ [] ∧ c.EntityCode ≠ []))) := by
  unfold ParseWithOptions at h
  split at h
  · cases h
  split at h
  · cases h
  split at h
  · cases h
  split at h
  · cases h
  unfold parseBody at h
  split at h
  · cases h
  split at h
  · cases h
  split at h
  · cases h
  split at h
  · cases h
  have hc : c = classifyRemainder (normalizeInput clli opts) (baseRecord (normalizeInput clli opts)) := by
    unfold postValidate at h
    split at h
    · split at h
      · cases h
      · split at h
        · cases h
        · injection h with h'
          exact h'.symm
    · injection h with h'
      exact h'.symm
  subst hc
  exact classify_payload (normalizeInput clli opts) (baseRecord (normalizeInput clli opts))
    rfl rfl rfl rfl rfl rfl

/-- C4 witness: instantiated at the successful entity parse of
"CHCGIL01DS0". -/
theorem C4_witness :
    (((⟨"CHCGIL01DS0".data, "CHCG".data, "IL".data, "01".data, "DS0".data,
      [], [], [], [], .entity, true⟩ : CLLI)).cliType = CLLIType.entity →
      ((⟨"CHCGIL01DS0".data, "CHCG".data, "IL".data, "01".data, "DS0".data,
      [], [], [], [], .entity, true⟩ : CLLI)).NetworkSite ≠ [] ∧ ((⟨"CHCGIL01DS0".data, "CHCG".data, "IL".data, "01".data, "DS0".data,
      [], [], [], [], .entity, true⟩ : CLLI)).LocationCode = [] ∧ ((⟨"CHCGIL01DS0".data, "CHCG".data, "IL".data, "01".data, "DS0".data,
      [], [], [], [], .entity, true⟩ : CLLI)).LocationID = [] ∧
      ((⟨"CHCGIL01DS0".data, "CHCG".data, "IL".data, "01".data, "DS0".data,
      [], [], [], [], .entity, true⟩ : CLLI)).CustomerCode = [] ∧ ((⟨"CHCGIL01DS0".data, "CHCG".data, "IL".data, "01".data, "DS0".data,
      [], [], [], [], .entity, true⟩ : CLLI)).CustomerID = []) ∧
    (((⟨"CHCGIL01DS0".data, "CHCG".data, "IL".data, "01".data, "DS0".data,
      [], [], [], [], .entity, true⟩ : CLLI)).cliType = CLLIType.nonBuilding →
      ((⟨"CHCGIL01DS0".data, "CHCG".data, "IL".data, "01".data, "DS0".data,
      [], [], [], [], .entity, true⟩ : CLLI)).CustomerCode = [] ∧ ((⟨"CHCGIL01DS0".data, "CHCG".data, "IL".data, "01".data, "DS0".data,
      [], [], [], [], .entity, true⟩ : CLLI)).CustomerID = [] ∧ ((⟨"CHCGIL01DS0".data, "CHCG".data, "IL".data, "01".data, "DS0".data,
      [], [], [], [], .entity, true⟩ : CLLI)).EntityCode = [] ∧
      ((((⟨"CHCGIL01DS0".data, "CHCG".data, "IL".data, "01".data, "DS0".data,
      [], [], [], [], .entity, true⟩ : CLLI)).LocationCode ≠ [] ∧ ((⟨"CHCGIL01DS0".data, "CHCG".data, "IL".data, "01".data, "DS0".data,
      [], [], [], [], .entity, true⟩ : CLLI)).LocationID ≠ [] ∧ ((⟨"CHCGIL01DS0".data, "CHCG".data, "IL".data, "01".data, "DS0".data,
      [], [], [], [], .entity, true⟩ : CLLI)).NetworkSite = []) ∨
       (((⟨"CHCGIL01DS0".data, "CHCG".data, "IL".data, "01".data, "DS0".data,
      [], [], [], [], .entity, true⟩ : CLLI)).LocationCode = [] ∧ ((⟨"CHCGIL01DS0".data, "CHCG".data, "IL".data, "01".data, "DS0".data,
      [], [], [], [], .entity, true⟩ : CLLI)).LocationID = []))) ∧
    (((⟨"CHCGIL01DS0".data, "CHCG".data, "IL".data, "01".data, "DS0".data,
      [], [], [], [], .entity, true⟩ : CLLI)).cliType = CLLIType.customer →
      ((⟨"CHCGIL01DS0".data, "CHCG".data, "IL".data, "01".data, "DS0".data,
      [], [], [], [], .entity, true⟩ : CLLI)).LocationCode = [] ∧ ((⟨"CHCGIL01DS0".data, "CHCG".data, "IL".data, "01".data, "DS0".data,
      [], [], [], [], .entity, true⟩ : CLLI)).LocationID = [] ∧
      ((((⟨"CHCGIL01DS0".data, "CHCG".data, "IL".data, "01".data, "DS0".data,
      [], [], [], [], .entity, true⟩ : CLLI)).CustomerCode ≠ [] ∧ ((⟨"CHCGIL01DS0".data, "CHCG".data, "IL".data, "01".data, "DS0".data,
      [], [], [], [], .entity, true⟩ : CLLI)).CustomerID ≠ [] ∧ ((⟨"CHCGIL01DS0".data, "CHCG".data, "IL".data, "01".data, "DS0".data,
      [], [], [], [], .entity, true⟩ : CLLI)).NetworkSite = [] ∧ ((⟨"CHCGIL01DS0".data, "CHCG".data, "IL".data, "01".data, "DS0".data,
      [], [], [], [], .entity, true⟩ : CLLI)).EntityCode = []) ∨
       (((⟨"CHCGIL01DS0".data, "CHCG".data, "IL".data, "01".data, "DS0".data,
      [], [], [], [], .entity, true⟩ : CLLI)).CustomerCode = [] ∧ ((⟨"CHCGIL01DS0".data, "CHCG".data, "IL".data, "01".data, "DS0".data,
      [], [], [], [], .entity, true⟩ : CLLI)).CustomerID = [] ∧ ((⟨"CHCGIL01DS0".data, "CHCG".data, "IL".data, "01".data, "DS0".data,
      [], [], [], [], .entity, true⟩ : CLLI)).NetworkSite ≠ [] ∧ ((⟨"CHCGIL01DS0".data, "CHCG".data, "IL".data, "01".data, "DS0".data,
      [], [], [], [], .entity, true⟩ : CLLI)).EntityCode ≠ []))) :=
  C4_payload_invariant "CHCGIL01DS0".data defaultOptions ⟨"CHCGIL01DS0".data, "CHCG".data, "IL".data, "01".data, "DS0".data,
      [], [], [], [], .entity, true⟩ rfl

theorem dropWhile_length_le {p : Char → Bool} : ∀ (l : List Char),
    (l.dropWhile p).length ≤ l.length := by
  intro l
  induction l with
  | nil => simp
  | cons a t ih =>
    rw [List.dropWhile_cons]
    split
    · exact Nat.le_trans ih (by simp)
    · simp

theorem dropWhile_eq_self_of_length {p : Char → Bool} {l : List Char}
    (h : (l.dropWhile p).length = l.length) : l.dropWhile p = l := by
  cases l with
  | nil => rfl
  | cons a t =>
    rw [List.dropWhile_cons] at h ⊢
    by_cases hpa : p a = true
    · rw [if_pos hpa] at h
      have hle := dropWhile_length_le (p := p) t
      simp only [List.length_cons] at h
      exfalso
      omega
    · rw [if_neg hpa]

theorem validatePlace_len4 {s : List Char} (hlen : s.length = 4)
    (hp : validatePlace s = true) :
    trimRightSpaces s = s ∧ s.all isUpperChar = true := by
  unfold validatePlace at hp
  split at hp
  · cases hp
  split at hp
  · cases hp
  case isFalse.isFalse h1 h2 =>
    push_neg at h2
    have heq : trimRightSpaces s = s := by
      unfold trimRightSpaces at h2 ⊢
      rw [List.length_reverse] at h2
      rw [dropWhile_eq_self_of_length (by rw [h2, List.length_reverse, hlen]),
        List.reverse_reverse]
    rw [heq] at hp
    exact ⟨heq, hp⟩

theorem validateRegion_upper {s : List Char} (hr : validateRegion s = true) :
    s.all isUpperChar = true := by
  unfold validateRegion at hr
  split at hr
  · cases hr
  split at hr
  · cases hr
  split at hr
  · cases hr
  case isFalse.isFalse.isFalse h1 h2 h3 =>
    exact not_not.mp h3

/-- C7: every 8-character normalized input made of a valid 4-letter place,
a recognized region code and two trailing digits parses successfully as the
degenerate NonBuilding form, with the two digits stored as the network site
(and not as an Entity). -/
theorem C7_degenerate_nonbuilding (a b c d e f g h : Char)
    (hp : validatePlace [a, b, c, d] = true)
    (hr : validateRegion [e, f] = true)
    (hg : isDigitChar g = true) (hh : isDigitChar h = true) :
    ParseWithOptions [a, b, c, d, e, f, g, h] defaultOptions =
      .ok ⟨[a, b, c, d, e, f, g, h], [a, b, c, d], [e, f], [g, h], [],
        [], [], [], [], .nonBuilding, true⟩ := by
  obtain ⟨htr4, hpl⟩ := validatePlace_len4 (by simp) hp
  have hrg := validateRegion_upper hr
  simp only [List.all_cons, List.all_nil, Bool.and_eq_true, Bool.and_true] at hpl hrg
  obtain ⟨ha, hb, hc', hd⟩ := hpl
  obtain ⟨he, hf⟩ := hrg
  have halnum : ∀ x ∈ [a, b, c, d, e, f, g, h], isAlnumChar x = true := by
    intro x hx
    simp only [List.mem_cons, List.not_mem_nil, or_false] at hx
    rcases hx with rfl | rfl | rfl | rfl | rfl | rfl | rfl | rfl <;>
      simp [isAlnumChar, *]
  have hnorm : normalizeInput [a, b, c, d, e, f, g, h] defaultOptions =
      [a, b, c, d, e, f, g, h] := by
    unfold normalizeInput defaultOptions
    simp only [if_true]
    rw [trimSpace_eq_self halnum, toUpperList_eq_self halnum]
  have htrim : trimSpace [a, b, c, d, e, f, g, h] ≠ [] := by
    rw [trimSpace_eq_self halnum]
    simp
  have hbad : firstBadChar [a, b, c, d, e, f, g, h] = none := by
    unfold firstBadChar
    rw [List.findIdx?_eq_none_iff]
    intro x hx
    simp [halnum x hx]
  unfold ParseWithOptions
  rw [if_neg htrim, hnorm]
  show parseBody [a, b, c, d, e, f, g, h] [a, b, c, d, e, f, g, h] = _
  unfold parseBody
  simp only [hbad]
  have hpp : validatePlace (paddedPlace [a, b, c, d, e, f, g, h]) = true := hp
  have hreg : validateRegion (paddedRegion [a, b, c, d, e, f, g, h]) = true := hr
  rw [if_neg (not_not_intro hpp), if_neg (by simp [hreg]),
    if_neg (by simp [precheckFails, listSlice, validateNetworkSiteAlphanumeric,
      isAlnumChar, hg, hh])]
  simp [classifyRemainder, postValidate, baseRecord, actualRegion, listSlice,
    isDigitsOnly, isDigits, isAlpha, isDigit, isValidEntityCode, hg, hh, htr4]

/-- C7 witness: instantiated at "LSANCA12". -/
theorem C7_witness :
    ParseWithOptions ['L', 'S', 'A', 'N', 'C', 'A', '1', '2'] defaultOptions =
      .ok ⟨['L', 'S', 'A', 'N', 'C', 'A', '1', '2'], ['L', 'S', 'A', 'N'], ['C', 'A'],
        ['1', '2'], [], [], [], [], [], .nonBuilding, true⟩ :=
  C7_degenerate_nonbuilding 'L' 'S' 'A' 'N' 'C' 'A' '1' '2'
    (by decide) (by decide) (by decide) (by decide)

theorem IsNonBuildingCLLI_elim {s : List Char} (h : IsNonBuildingCLLI s = true) :
    s.length = 11 ∧ isAlpha (listSlice s 6 7) = true ∧
    isDigitsOnly (listSlice s 7 11) = true := by
  unfold IsNonBuildingCLLI at h
  split at h
  · cases h
  split at h
  · cases h
  split at h
  · cases h
  rename_i h1 h2 h3
  split at h
  · cases h
  split at h
  · cases h
  rename_i h4 h5
  split at h
  · cases h
  rename_i h6
  exact ⟨not_not.mp h3, not_not.mp h5, not_not.mp h6⟩

theorem IsCustomerCLLI_elim {s : List Char} (h : IsCustomerCLLI s = true) :
    s.length = 11 ∧ isDigit (listSlice s 6 7) = true ∧
    isAlpha (listSlice s 7 8) = true ∧ isDigitsOnly (listSlice s 8 11) = true := by
  unfold IsCustomerCLLI at h
  split at h
  · cases h
  split at h
  · cases h
  split at h
  · cases h
  rename_i h1 h2 h3
  split at h
  · cases h
  split at h
  · cases h
  rename_i h4 h5
  split at h
  · cases h
  rename_i h6
  split at h
  · cases h
  rename_i h7
  exact ⟨not_not.mp h3, not_not.mp h5, not_not.mp h6, not_not.mp h7⟩

theorem IsEntityCLLI_elim {s : List Char} (h : IsEntityCLLI s = true) :
    8 ≤ s.length ∧ s.length ≤ 11 ∧
    ∃ i, i ∈ List.range' 2 4 ∧ i ≤ (s.drop 6).length ∧
      isDigitsOnly ((s.drop 6).take i) = true ∧
      ((s.drop 6).drop i).length = 3 ∧
      isValidEntityCode ((s.drop 6).drop i) = true := by
  unfold IsEntityCLLI at h
  split at h
  · cases h
  split at h
  · cases h
  split at h
  · cases h
  rename_i h1 h2 h3
  split at h
  · cases h
  split at h
  · cases h
  rename_i h4 h5
  split at h
  case isFalse => cases h
  rename_i h6
  simp only [Bool.or_eq_true, decide_eq_true_eq, not_or] at h3
  refine ⟨by omega, by omega, ?_⟩
  rw [List.any_eq_true] at h
  obtain ⟨i, hmem, hcond⟩ := h
  simp only [entityRemainderMatch, Bool.and_eq_true, decide_eq_true_eq] at hcond
  obtain ⟨hile, ⟨hdig, hlen3⟩, hval⟩ := hcond
  exact ⟨i, hmem, hile, hdig, hlen3, hval⟩

/-- C8: for any input string, at most one of the three package-level shape
probes `IsEntityCLLI`, `IsNonBuildingCLLI`, `IsCustomerCLLI` returns true:
each pairwise conjunction is false. -/
theorem C8_probes_exclusive (s : List Char) :
    (IsEntityCLLI s && IsNonBuildingCLLI s) = false ∧
    (IsEntityCLLI s && IsCustomerCLLI s) = false ∧
    (IsNonBuildingCLLI s && IsCustomerCLLI s) = false := by
  refine ⟨?_, ?_, ?_⟩
  · cases hE : IsEntityCLLI s with
    | false => simp
    | true =>
      cases hN : IsNonBuildingCLLI s with
      | false => simp
      | true =>
        exfalso
        obtain ⟨hlo, hhi, i, hmem, hile, hdig, hlen3, hval⟩ := IsEntityCLLI_elim hE
        obtain ⟨h11, halpha, hdig2⟩ := IsNonBuildingCLLI_elim hN
        have hr5 : (s.drop 6).length = 5 := by rw [List.length_drop, h11]
        have hi2 : i = 2 := by
          rw [List.length_drop] at hlen3
          omega
        subst hi2
        obtain ⟨x, t, ht4, hxt⟩ := exists_cons_of_len _ 4 hr5
        unfold listSlice at halpha
        norm_num at halpha
        rw [hxt] at hdig halpha
        simp only [List.take_succ_cons, List.take_zero] at hdig halpha
        simp only [isDigitsOnly, isAlpha, List.all_cons, List.all_nil,
          Bool.and_eq_true, Bool.and_true] at hdig halpha
        exact not_upper_and_digit (by tauto) (by tauto)
  · cases hE : IsEntityCLLI s with
    | false => simp
    | true =>
      cases hC : IsCustomerCLLI s with
      | false => simp
      | true =>
        exfalso
        obtain ⟨hlo, hhi, i, hmem, hile, hdig, hlen3, hval⟩ := IsEntityCLLI_elim hE
        obtain ⟨h11, hd, halpha, hdig3⟩ := IsCustomerCLLI_elim hC
        have hr5 : (s.drop 6).length = 5 := by rw [List.length_drop, h11]
        have hi2 : i = 2 := by
          rw [List.length_drop] at hlen3
          omega
        subst hi2
        obtain ⟨x, t, ht4, hxt⟩ := exists_cons_of_len _ 4 hr5
        obtain ⟨y, u, hu3, hyu⟩ := exists_cons_of_len _ 3 ht4
        have hdrop7 : s.drop 7 = t := by
          have : s.drop 7 = (s.drop 6).drop 1 := by
            rw [List.drop_drop]
          rw [this, hxt]
          rfl
        unfold listSlice at halpha
        norm_num at halpha
        rw [hdrop7, hyu] at halpha
        rw [hxt, hyu] at hdig
        simp only [List.take_succ_cons, List.take_zero] at hdig halpha
        simp only [isDigitsOnly, isAlpha, List.all_cons, List.all_nil,
          Bool.and_eq_true, Bool.and_true] at hdig halpha
        exact not_upper_and_digit (by tauto) (by tauto)
  · cases hN : IsNonBuildingCLLI s with
    | false => simp
    | true =>
      cases hC : IsCustomerCLLI s with
      | false => simp
      | true =>
        exfalso
        obtain ⟨h11, halpha, _⟩ := IsNonBuildingCLLI_elim hN
        obtain ⟨_, hd, _, _⟩ := IsCustomerCLLI_elim hC
        have hr5 : (s.drop 6).length = 5 := by rw [List.length_drop, h11]
        obtain ⟨x, t, ht4, hxt⟩ := exists_cons_of_len _ 4 hr5
        unfold listSlice at halpha hd
        norm_num at halpha hd
        rw [hxt] at halpha hd
        simp only [List.take_succ_cons, List.take_zero] at halpha hd
        simp only [isDigit, isAlpha, List.all_cons, List.all_nil, List.length_cons,
          List.length_nil, Bool.and_eq_true, Bool.and_true, decide_eq_true_eq] at halpha hd
        exact not_upper_and_digit (by tauto) (by tauto)

/-- C1 counterexample: "LSANCA12" parses successfully with shape NonBuilding,
yet the NonBuilding shape probe (which requires length exactly 11) returns
false on it — in fact no probe returns true — contradicting the claim that
the probe for the parsed shape always agrees. -/
theorem C1_counterexample :
    (Parse "LSANCA12".data).toOption.map CLLI.cliType = some CLLIType.nonBuilding ∧
    IsNonBuildingCLLI "LSANCA12".data = false ∧
    IsEntityCLLI "LSANCA12".data = false ∧
    IsCustomerCLLI "LSANCA12".data = false :=
  ⟨rfl, rfl, rfl, rfl⟩

/-- A code passing the table grammar also passes the loose structural check
(the grammar validates the structural check up front). -/
theorem validateEntityCode_imp {s : List Char} (h : validateEntityCode s = true) :
    isValidEntityCode s = true := by
  match s with
  | [] =>
    rw [show validateEntityCode [] = false from rfl] at h
    exact Bool.noConfusion h
  | [x] =>
    rw [show validateEntityCode [x] = false from rfl] at h
    exact Bool.noConfusion h
  | [x, y] =>
    rw [show validateEntityCode [x, y] = false from rfl] at h
    exact Bool.noConfusion h
  | [x, y, z] =>
    by_cases hv : isValidEntityCode [x, y, z] = true
    · exact hv
    · unfold validateEntityCode at h
      rw [if_neg (by simp), if_neg (by simp), if_pos (by simp [hv])] at h
      exact Bool.noConfusion h
  | x :: y :: z :: w :: t =>
    unfold validateEntityCode at h
    rw [if_neg (by simp), if_pos (by simp)] at h
    exact Bool.noConfusion h

theorem isDigitsOnly_eq_isDigits (s : List Char) : isDigitsOnly s = isDigits s := rfl

theorem classify_eleven (input : List Char) (r : CLLI) (hlen : input.length = 11) :
    (isDigitsOnly (listSlice (input.drop 6) 0 2) = true ∧
     isValidEntityCode ((input.drop 6).drop 2) = true ∧
     classifyRemainder input r =
       { r with NetworkSite := listSlice (input.drop 6) 0 2,
                EntityCode := (input.drop 6).drop 2, cliType := .entity }) ∨
    (isAlpha (listSlice (input.drop 6) 0 1) = true ∧
     isDigits ((input.drop 6).drop 1) = true ∧
     classifyRemainder input r =
       { r with LocationCode := listSlice (input.drop 6) 0 1,
                LocationID := (input.drop 6).drop 1, cliType := .nonBuilding }) ∨
    (isDigit (listSlice (input.drop 6) 0 1) = true ∧
     isAlpha (listSlice (input.drop 6) 1 2) = true ∧
     isDigits ((input.drop 6).drop 2) = true ∧
     classifyRemainder input r =
       { r with CustomerCode := listSlice (input.drop 6) 0 1,
                CustomerID := (input.drop 6).drop 1, cliType := .customer }) ∨
    (¬ (isDigitsOnly (listSlice (input.drop 6) 0 2) = true ∧
        isValidEntityCode ((input.drop 6).drop 2) = true) ∧
     classifyRemainder input r =
       { r with NetworkSite := listSlice (input.drop 6) 0 2,
                EntityCode := (input.drop 6).drop 2, cliType := .entity }) := by
  have hr5 : (input.drop 6).length = 5 := by rw [List.length_drop, hlen]
  unfold classifyRemainder
  split
  case isFalse hf => exact absurd (by omega) hf
  split
  case isTrue hcond => rw [hr5] at hcond; simp at hcond
  split
  case isTrue hcond =>
    simp only [Bool.and_eq_true, decide_eq_true_eq] at hcond
    exact Or.inl ⟨hcond.1.2, hcond.2, rfl⟩
  case isFalse hne =>
    split
    case isTrue hcond =>
      simp only [Bool.and_eq_true, decide_eq_true_eq] at hcond
      exact Or.inr (Or.inl ⟨hcond.1.2, hcond.2, rfl⟩)
    case isFalse hne3 =>
      split
      case isTrue hcond =>
        simp only [Bool.and_eq_true, decide_eq_true_eq] at hcond
        exact Or.inr (Or.inr (Or.inl ⟨hcond.1.1.2, hcond.1.2, hcond.2, rfl⟩))
      case isFalse hne4 =>
        split
        case isTrue hcond => rw [hr5] at hcond; simp at hcond
        split
        case isFalse hf => exact absurd (by omega) hf
        refine Or.inr (Or.inr (Or.inr ⟨?_, ?_⟩))
        · intro ⟨hd, hv⟩
          refine hne ?_
          simp only [List.drop_drop] at hv
          simp [hd, hv, hr5]
        · rw [if_pos (by omega)]

/-- C1 (amended): for inputs already in normalized form and of the canonical
11-character length, the shape probes do agree with the shape produced by
`Parse`: a NonBuilding parse satisfies `IsNonBuildingCLLI`, a Customer parse
satisfies `IsCustomerCLLI`, and an Entity parse with an all-digit network
site satisfies `IsEntityCLLI`. (Degenerate 8-character NonBuilding parses,
15-character Customer parses, and fallback Entity parses with letter network
sites are not recognized by the probes.) -/
theorem C1_probe_agreement (s : List Char) (c : CLLI)
    (hlen : s.length = 11) (halnum : s.all isAlnumChar = true)
    (h : Parse s = .ok c) :
    (c.cliType = CLLIType.nonBuilding → IsNonBuildingCLLI s = true) ∧
    (c.cliType = CLLIType.customer → IsCustomerCLLI s = true) ∧
    (c.cliType = CLLIType.entity → isDigitsOnly c.NetworkSite = true →
      IsEntityCLLI s = true) := by
  obtain ⟨c0, c1, c2, c3, c4, c5, c6, c7, c8, c9, c10, rfl⟩ := exists_list_eleven s hlen
  rw [List.all_eq_true] at halnum
  have hub := toUpperList_eq_self halnum
  have htrim := trimSpace_eq_self halnum
  have hnorm : normalizeInput [c0, c1, c2, c3, c4, c5, c6, c7, c8, c9, c10] defaultOptions =
      [c0, c1, c2, c3, c4, c5, c6, c7, c8, c9, c10] := by
    unfold normalizeInput defaultOptions
    simp only [if_true]
    rw [htrim, hub]
  have hbad : firstBadChar [c0, c1, c2, c3, c4, c5, c6, c7, c8, c9, c10] = none := by
    unfold firstBadChar
    rw [List.findIdx?_eq_none_iff]
    intro x hx
    simp [halnum x hx]
  unfold Parse ParseWithOptions at h
  rw [if_neg (by rw [htrim]; simp), hnorm] at h
  norm_num [defaultOptions] at h
  unfold parseBody at h
  simp only [hbad] at h
  split at h
  · cases h
  split at h
  · cases h
  split at h
  · cases h
  rename_i hpl hrg hpre
  rw [not_not] at hpl
  have hplace := validatePlace_len4
    (s := listSlice [c0, c1, c2, c3, c4, c5, c6, c7, c8, c9, c10] 0 4)
    (by simp [listSlice]) hpl
  have hreg : validateRegion (listSlice [c0, c1, c2, c3, c4, c5, c6, c7, c8, c9, c10] 4 6) = true := by
    by_contra hvr
    rw [Bool.not_eq_true] at hvr
    exact hrg (by
      rw [show paddedRegion [c0, c1, c2, c3, c4, c5, c6, c7, c8, c9, c10] =
        listSlice [c0, c1, c2, c3, c4, c5, c6, c7, c8, c9, c10] 4 6 from rfl]
      simp [hvr])
  have hPlaceAlpha : isAlpha (listSlice [c0, c1, c2, c3, c4, c5, c6, c7, c8, c9, c10] 0 4) = true := by
    simp only [isAlpha, Bool.and_eq_true, Bool.not_eq_true', List.isEmpty_eq_false]
    exact ⟨hplace.2, by simp [listSlice]⟩
  have hRegionAlpha : isAlpha (listSlice [c0, c1, c2, c3, c4, c5, c6, c7, c8, c9, c10] 4 6) = true := by
    simp only [isAlpha, Bool.and_eq_true, Bool.not_eq_true', List.isEmpty_eq_false]
    exact ⟨validateRegion_upper hreg, by simp [listSlice]⟩
  -- extract the classified record and the entity-code validation fact
  have hpost : c = classifyRemainder [c0, c1, c2, c3, c4, c5, c6, c7, c8, c9, c10]
      (baseRecord [c0, c1, c2, c3, c4, c5, c6, c7, c8, c9, c10]) ∧
      ((classifyRemainder [c0, c1, c2, c3, c4, c5, c6, c7, c8, c9, c10]
          (baseRecord [c0, c1, c2, c3, c4, c5, c6, c7, c8, c9, c10])).cliType = CLLIType.entity ∧
       (classifyRemainder [c0, c1, c2, c3, c4, c5, c6, c7, c8, c9, c10]
          (baseRecord [c0, c1, c2, c3, c4, c5, c6, c7, c8, c9, c10])).EntityCode ≠ [] →
        validateEntityCode (classifyRemainder [c0, c1, c2, c3, c4, c5, c6, c7, c8, c9, c10]
          (baseRecord [c0, c1, c2, c3, c4, c5, c6, c7, c8, c9, c10])).EntityCode = true) := by
    unfold postValidate at h
    split at h
    case isTrue hcnd =>
      split at h
      · cases h
      split at h
      case isTrue => cases h
      case isFalse hv =>
        injection h with h'
        exact ⟨h'.symm, fun _ => not_not.mp hv⟩
    case isFalse hcnd =>
      injection h with h'
      refine ⟨h'.symm, fun hx => absurd ?_ hcnd⟩
      simp [hx.1, hx.2]
  obtain ⟨hc, hval⟩ := hpost
  rcases classify_eleven [c0, c1, c2, c3, c4, c5, c6, c7, c8, c9, c10]
      (baseRecord [c0, c1, c2, c3, c4, c5, c6, c7, c8, c9, c10]) rfl
    with ⟨hdig, hvalid, hR⟩ | ⟨hal, hdig, hR⟩ | ⟨hd, hal, hdig, hR⟩ | ⟨hnotent, hR⟩
  · -- primary entity
    rw [hR] at hc
    subst hc
    refine ⟨fun ht => by simp at ht, fun ht => by simp at ht, fun ht hns => ?_⟩
    unfold IsEntityCLLI
    rw [if_neg (by simp), if_neg (by simp [hub]), if_neg (by norm_num),
      if_neg (by norm_num), if_neg (by simp [hPlaceAlpha, hRegionAlpha]),
      if_pos (by norm_num)]
    simp only [List.drop_succ_cons, List.drop_zero, listSlice, List.take_succ_cons,
      List.take_zero] at hdig hvalid
    simp only [List.range', List.any_cons, List.any_nil, entityRemainderMatch,
      List.drop_succ_cons, List.drop_zero, List.take_succ_cons, List.take_zero,
      listSlice]
    simp [hdig, hvalid]
  · -- non-building
    rw [hR] at hc
    subst hc
    refine ⟨fun ht => ?_, fun ht => by simp at ht, fun ht => by simp at ht⟩
    unfold IsNonBuildingCLLI
    rw [if_neg (by simp), if_neg (by simp [hub]), if_neg (by norm_num),
      if_neg (by simp [hPlaceAlpha, hRegionAlpha])]
    simp only [List.drop_succ_cons, List.drop_zero, listSlice, List.take_succ_cons,
      List.take_zero] at hal hdig
    simp only [listSlice, List.drop_succ_cons, List.drop_zero, List.take_succ_cons,
      List.take_zero]
    rw [if_neg (by simp [hal]), if_neg (by simp [isDigitsOnly_eq_isDigits, hdig])]
  · -- customer short form
    rw [hR] at hc
    subst hc
    refine ⟨fun ht => by simp at ht, fun ht => ?_, fun ht => by simp at ht⟩
    unfold IsCustomerCLLI
    rw [if_neg (by simp), if_neg (by simp [hub]), if_neg (by norm_num),
      if_neg (by simp [hPlaceAlpha, hRegionAlpha])]
    simp only [List.drop_succ_cons, List.drop_zero, listSlice, List.take_succ_cons,
      List.take_zero] at hd hal hdig
    simp only [listSlice, List.drop_succ_cons, List.drop_zero, List.take_succ_cons,
      List.take_zero]
    rw [if_neg (by simp [hd]), if_neg (by simp [hal]),
      if_neg (by simp [isDigitsOnly_eq_isDigits, hdig])]
  · -- fallback entity: its network site is never all digits
    rw [hR] at hc hval
    subst hc
    refine ⟨fun ht => by simp at ht, fun ht => by simp at ht, fun ht hns => ?_⟩
    exfalso
    have hvE := hval (by constructor <;> simp [listSlice])
    simp only at hvE
    have hvalid := validateEntityCode_imp hvE
    simp only at hns
    exact hnotent ⟨hns, hvalid⟩

/-- C1 witness: instantiated at the NonBuilding parse of "MPLSMNB1234". -/
theorem C1_witness :
    (((⟨"MPLSMNB1234".data, "MPLS".data, "MN".data, [], [], "B".data, "1234".data,
        [], [], .nonBuilding, true⟩ : CLLI)).cliType = CLLIType.nonBuilding →
      IsNonBuildingCLLI "MPLSMNB1234".data = true) ∧
    (((⟨"MPLSMNB1234".data, "MPLS".data, "MN".data, [], [], "B".data, "1234".data,
        [], [], .nonBuilding, true⟩ : CLLI)).cliType = CLLIType.customer →
      IsCustomerCLLI "MPLSMNB1234".data = true) ∧
    (((⟨"MPLSMNB1234".data, "MPLS".data, "MN".data, [], [], "B".data, "1234".data,
        [], [], .nonBuilding, true⟩ : CLLI)).cliType = CLLIType.entity →
      isDigitsOnly ((⟨"MPLSMNB1234".data, "MPLS".data, "MN".data, [], [], "B".data, "1234".data,
        [], [], .nonBuilding, true⟩ : CLLI)).NetworkSite = true →
      IsEntityCLLI "MPLSMNB1234".data = true) :=
  C1_probe_agreement "MPLSMNB1234".data ⟨"MPLSMNB1234".data, "MPLS".data, "MN".data, [], [], "B".data, "1234".data,
        [], [], .nonBuilding, true⟩ rfl (by decide) rfl

end CLLIEmbed
